import Mathlib

/-
Verification model of `nsac.py` (NSGadget_Pi).

The Python program reads 8-byte joystick event records
`timestamp: u32, value: i16, type: u8, number: u8` (struct format `IhBB`)
from `/dev/input/js*` devices, translates them per controller profile and
emits calls on a shared `NSGamepadSerial` sink (`NSG`).  Each per-profile
read loop is modelled here as a pure step function from one raw event to
the list of sink calls it performs (plus decoder-local state where the
profile keeps any).  A Python `array.array` lookup `MAP[number]` raises
`IndexError` when `number` is out of range, which escapes the loop and
terminates the decoder thread; the step functions therefore return
`Option`, with `none` standing for that uncaught exception.
-/

namespace NSAC

/-- Modelled from the spec: the `NSButton` enumeration of `nsgpadserial`
(not part of `src/`).  The spec lists the abstract buttons
A, B, X, Y, LeftTrigger, RightTrigger, LeftThrottle, RightThrottle,
Minus, Plus, Home, Capture, LeftStick, RightStick; they are encoded as the
distinct byte values 0..13 (all below 128, compatible with the program's
use of 255 as a dpad sentinel and of codes ≥ 128 for dpad bits). -/
def NSButton.A : Nat := 0

def NSButton.B : Nat := 1

def NSButton.X : Nat := 2

def NSButton.Y : Nat := 3

def NSButton.LEFT_TRIGGER : Nat := 4

def NSButton.RIGHT_TRIGGER : Nat := 5

def NSButton.LEFT_THROTTLE : Nat := 6

def NSButton.RIGHT_THROTTLE : Nat := 7

def NSButton.MINUS : Nat := 8

def NSButton.PLUS : Nat := 9

def NSButton.HOME : Nat := 10

def NSButton.CAPTURE : Nat := 11

def NSButton.LEFT_STICK : Nat := 12

def NSButton.RIGHT_STICK : Nat := 13

/-- Modelled from the spec: the `NSDPad` direction enumeration of
`nsgpadserial` (not part of `src/`): one of 9 named directions. -/
inductive NSDPad
  | CENTERED
  | UP
  | UP_RIGHT
  | RIGHT
  | DOWN_RIGHT
  | DOWN
  | DOWN_LEFT
  | LEFT
  | UP_LEFT
deriving DecidableEq

/-- `BUTTONS_MAP_DPAD` from `nsac.py`: the 16-entry table mapping the
4 direction-button bits (index bits, LSB first: U, R, D, L) to an
`NSDPad` direction.  Order of entries is exactly the source's. -/
def BUTTONS_MAP_DPAD : List NSDPad := [
  NSDPad.CENTERED,    -- 0000
  NSDPad.UP,          -- 0001
  NSDPad.RIGHT,       -- 0010
  NSDPad.UP_RIGHT,    -- 0011
  NSDPad.DOWN,        -- 0100
  NSDPad.CENTERED,    -- 0101
  NSDPad.DOWN_RIGHT,  -- 0110
  NSDPad.CENTERED,    -- 0111
  NSDPad.LEFT,        -- 1000
  NSDPad.UP_LEFT,     -- 1001
  NSDPad.CENTERED,    -- 1010
  NSDPad.CENTERED,    -- 1011
  NSDPad.DOWN_LEFT,   -- 1100
  NSDPad.CENTERED,    -- 1101
  NSDPad.CENTERED,    -- 1110
  NSDPad.CENTERED     -- 1111
]

/-- The Python indexing `BUTTONS_MAP_DPAD[dpad_bits]`: `none` models the
`IndexError` raised for an index past the end of the array. -/
def dpadCombine (m : Nat) : Option NSDPad := BUTTONS_MAP_DPAD.get? m

/-- The axis quantizer appearing inline in every decoder of `nsac.py`:
`axis = ((value + 32768) >> 8)`.  On a Python `int`, `>> 8` is floor
division by 256; for the positive divisor 256 that coincides with the
Euclidean division `/` of `Int`. -/
def quantize (raw : Int) : Int := (raw + 32768) / 256

/-- One decoded 8-byte joystick record, as unpacked by
`unpack('IhBB', evbuf)`: `timestamp: u32, value: i16, type: u8, number: u8`. -/
structure RawEvent where
  timestamp : Nat
  value : Int
  type : Nat
  number : Nat
deriving DecidableEq

/-- One call on the shared `NSG` sink (`NSGamepadSerial`).  Button
arguments are the byte codes stored in the profiles' button maps. -/
inductive SinkCall
  | press (b : Nat)
  | release (b : Nat)
  | leftXAxis (v : Int)
  | leftYAxis (v : Int)
  | rightXAxis (v : Int)
  | rightYAxis (v : Int)
  | dPadXAxis (v : Int)
  | dPadYAxis (v : Int)
  | dPad (d : NSDPad)
deriving DecidableEq

/-- Number of `press` calls in a list of sink calls. -/
def countPress : List SinkCall → Nat
  | [] => 0
  | SinkCall.press _ :: rest => countPress rest + 1
  | _ :: rest => countPress rest

/-- `read_horipad` body for one event.  The HoriPad profile has no button
map: the raw `number` is passed straight to `NSG.press`/`NSG.release`, so
a button event can never raise.  (The source tests `type == 0x01` and
`type == 0x02` in two separate `if`s; since `type` is a single byte the
two branches are mutually exclusive, written here as `if`/`else if`.) -/
def read_horipad_event (e : RawEvent) : List SinkCall :=
  if e.type = 1 then
    if e.value ≠ 0 then [SinkCall.press e.number] else [SinkCall.release e.number]
  else if e.type = 2 then
    let axis := quantize e.value
    if e.number = 0 then [SinkCall.leftXAxis axis]
    else if e.number = 1 then [SinkCall.leftYAxis axis]
    else if e.number = 2 then [SinkCall.rightXAxis axis]
    else if e.number = 3 then [SinkCall.rightYAxis axis]
    else if e.number = 4 then [SinkCall.dPadXAxis axis]
    else if e.number = 5 then [SinkCall.dPadYAxis axis]
    else []
  else []

/-- `BUTTON_MAP` of `read_xbox1` (11 entries). -/
def XBOX1_BUTTON_MAP : List Nat := [
  NSButton.B,
  NSButton.A,
  NSButton.Y,
  NSButton.X,
  NSButton.LEFT_TRIGGER,
  NSButton.RIGHT_TRIGGER,
  NSButton.MINUS,
  NSButton.PLUS,
  NSButton.HOME,
  NSButton.LEFT_STICK,
  NSButton.RIGHT_STICK]

/-- `read_xbox1` body for one event; `none` models the uncaught
`IndexError` of `BUTTON_MAP[number]` (the decoder thread dies). -/
def read_xbox1_event (e : RawEvent) : Option (List SinkCall) :=
  if e.type = 1 then
    match XBOX1_BUTTON_MAP.get? e.number with
    | none => none
    | some button_out =>
        some (if e.value ≠ 0 then [SinkCall.press button_out] else [SinkCall.release button_out])
  else if e.type = 2 then
    let axis := quantize e.value
    some (if e.number = 0 then [SinkCall.leftXAxis axis]
      else if e.number = 1 then [SinkCall.leftYAxis axis]
      else if e.number = 2 then
        if axis > 128 then [SinkCall.press NSButton.LEFT_THROTTLE]
        else [SinkCall.release NSButton.LEFT_THROTTLE]
      else if e.number = 3 then [SinkCall.rightXAxis axis]
      else if e.number = 4 then [SinkCall.rightYAxis axis]
      else if e.number = 5 then
        if axis > 128 then [SinkCall.press NSButton.RIGHT_THROTTLE]
        else [SinkCall.release NSButton.RIGHT_THROTTLE]
      else if e.number = 6 then [SinkCall.dPadXAxis axis]
      else if e.number = 7 then [SinkCall.dPadYAxis axis]
      else [])
  else some []

/-- `BUTTON_MAP` of `read_ps4ds` (13 entries). -/
def PS4DS_BUTTON_MAP : List Nat := [
  NSButton.B,
  NSButton.A,
  NSButton.Y,
  NSButton.X,
  NSButton.LEFT_TRIGGER,
  NSButton.RIGHT_TRIGGER,
  NSButton.LEFT_THROTTLE,
  NSButton.RIGHT_THROTTLE,
  NSButton.MINUS,
  NSButton.PLUS,
  NSButton.HOME,
  NSButton.LEFT_STICK,
  NSButton.RIGHT_STICK]

/-- `read_ps4ds` body for one event; axes 2 and 5 are deliberately not
handled by the source (the analog throttles are ignored). -/
def read_ps4ds_event (e : RawEvent) : Option (List SinkCall) :=
  if e.type = 1 then
    match PS4DS_BUTTON_MAP.get? e.number with
    | none => none
    | some button_out =>
        some (if e.value ≠ 0 then [SinkCall.press button_out] else [SinkCall.release button_out])
  else if e.type = 2 then
    let axis := quantize e.value
    some (if e.number = 0 then [SinkCall.leftXAxis axis]
      else if e.number = 1 then [SinkCall.leftYAxis axis]
      else if e.number = 3 then [SinkCall.rightXAxis axis]
      else if e.number = 4 then [SinkCall.rightYAxis axis]
      else if e.number = 6 then [SinkCall.dPadXAxis axis]
      else if e.number = 7 then [SinkCall.dPadYAxis axis]
      else [])
  else some []

/-- `BUTTON_MAP` of `read_hori_wheel` (11 entries). -/
def WHEEL_BUTTON_MAP : List Nat := [
  NSButton.A,
  NSButton.B,
  NSButton.X,
  NSButton.Y,
  NSButton.LEFT_TRIGGER,
  NSButton.RIGHT_TRIGGER,
  NSButton.MINUS,
  NSButton.PLUS,
  NSButton.HOME,
  NSButton.LEFT_STICK,
  NSButton.RIGHT_STICK]

/-- The local state of `read_hori_wheel`: the three last-value caches
declared before its loop. -/
structure WheelState where
  last_left_throttle : Int
  last_right_throttle : Int
  last_wheel : Int
deriving DecidableEq

/-- Initial values of the caches in `read_hori_wheel`:
`last_left_throttle = 0`, `last_right_throttle = 0`, `last_wheel = 128`. -/
def initWheelState : WheelState :=
  { last_left_throttle := 0, last_right_throttle := 0, last_wheel := 128 }

/-- `read_hori_wheel` body for one event.  Note that on axis 0 the source
compares against `last_wheel` but never assigns it, and on axes 2/5 it
updates the cache and emits only on a change of quantized value. -/
def read_hori_wheel_event (s : WheelState) (e : RawEvent) :
    Option (WheelState × List SinkCall) :=
  if e.type = 1 then
    match WHEEL_BUTTON_MAP.get? e.number with
    | none => none
    | some button_out =>
        some (s, if e.value ≠ 0 then [SinkCall.press button_out] else [SinkCall.release button_out])
  else if e.type = 2 then
    let axis := quantize e.value
    if e.number = 0 then
      some (s, if s.last_wheel ≠ axis then [SinkCall.leftXAxis axis] else [])
    else if e.number = 1 then some (s, [SinkCall.leftYAxis axis])
    else if e.number = 2 then
      if s.last_left_throttle ≠ axis then
        some ({ s with last_left_throttle := axis },
          if axis > 64 then [SinkCall.press NSButton.LEFT_THROTTLE]
          else [SinkCall.release NSButton.LEFT_THROTTLE])
      else some (s, [])
    else if e.number = 3 then some (s, [SinkCall.rightXAxis axis])
    else if e.number = 4 then some (s, [SinkCall.rightYAxis axis])
    else if e.number = 5 then
      if s.last_right_throttle ≠ axis then
        some ({ s with last_right_throttle := axis },
          if axis > 64 then [SinkCall.press NSButton.RIGHT_THROTTLE]
          else [SinkCall.release NSButton.RIGHT_THROTTLE])
      else some (s, [])
    else if e.number = 6 then some (s, [SinkCall.dPadXAxis axis])
    else if e.number = 7 then some (s, [SinkCall.dPadYAxis axis])
    else some (s, [])
  else some (s, [])

/-- `BUTTON_MAP_LEFT` of `read_dragon_rise` (12 entries; 255 marks the
four dpad buttons at indices 3..6). -/
def DR_BUTTON_MAP_LEFT : List Nat := [
  NSButton.LEFT_THROTTLE,
  NSButton.LEFT_TRIGGER,
  NSButton.MINUS,
  255,
  255,
  255,
  255,
  NSButton.LEFT_STICK,
  NSButton.CAPTURE,
  NSButton.CAPTURE,
  NSButton.CAPTURE,
  NSButton.CAPTURE]

/-- `BUTTON_MAP_RIGHT` of `read_dragon_rise` (12 entries). -/
def DR_BUTTON_MAP_RIGHT : List Nat := [
  NSButton.RIGHT_THROTTLE,
  NSButton.RIGHT_TRIGGER,
  NSButton.PLUS,
  NSButton.A,
  NSButton.B,
  NSButton.X,
  NSButton.Y,
  NSButton.RIGHT_STICK,
  NSButton.HOME,
  NSButton.HOME,
  NSButton.HOME,
  NSButton.HOME]

/-- `read_dragon_rise` body for one event; the decoder-local state is
`dpad_bits`.  `dpad_bits &= ~(1 << k)` on a non-negative Python int is
bit clearing, i.e. `Nat.ldiff`.  `none` models an uncaught `IndexError`
from either button-map or dpad-table lookup. -/
def read_dragon_rise_event (right_side : Bool) (dpad_bits : Nat) (e : RawEvent) :
    Option (Nat × List SinkCall) :=
  if e.type = 1 then
    match (if right_side then DR_BUTTON_MAP_RIGHT else DR_BUTTON_MAP_LEFT).get? e.number with
    | none => none
    | some button_out =>
        if button_out = 255 then
          let bits :=
            if e.value ≠ 0 then dpad_bits ||| (1 <<< (e.number - 3))
            else Nat.ldiff dpad_bits (1 <<< (e.number - 3))
          match dpadCombine bits with
          | none => none
          | some d => some (bits, [SinkCall.dPad d])
        else
          some (dpad_bits,
            if e.value ≠ 0 then [SinkCall.press button_out] else [SinkCall.release button_out])
  else if e.type = 2 then
    let axis := quantize e.value
    if right_side then
      some (dpad_bits,
        if e.number = 0 then [SinkCall.rightXAxis axis]
        else if e.number = 1 then [SinkCall.rightYAxis axis]
        else [])
    else
      some (dpad_bits,
        if e.number = 0 then [SinkCall.leftXAxis axis]
        else if e.number = 1 then [SinkCall.leftYAxis axis]
        else [])
  else some (dpad_bits, [])

/-- `BUTTON_MAP` of `read_le3dp` (12 entries). -/
def LE3DP_BUTTON_MAP : List Nat := [
  NSButton.A,
  NSButton.B,
  NSButton.X,
  NSButton.Y,
  NSButton.LEFT_TRIGGER,
  NSButton.RIGHT_TRIGGER,
  NSButton.MINUS,
  NSButton.PLUS,
  NSButton.CAPTURE,
  NSButton.HOME,
  NSButton.LEFT_THROTTLE,
  NSButton.RIGHT_THROTTLE]

/-- `read_le3dp` body for one event. -/
def read_le3dp_event (e : RawEvent) : Option (List SinkCall) :=
  if e.type = 1 then
    match LE3DP_BUTTON_MAP.get? e.number with
    | none => none
    | some button_out =>
        some (if e.value ≠ 0 then [SinkCall.press button_out] else [SinkCall.release button_out])
  else if e.type = 2 then
    let axis := quantize e.value
    some (if e.number = 0 then [SinkCall.leftXAxis axis]
      else if e.number = 1 then [SinkCall.leftYAxis axis]
      else if e.number = 4 then [SinkCall.rightXAxis axis]
      else if e.number = 5 then [SinkCall.rightYAxis axis]
      else [])
  else some []

/-- `BUTTON_MAP` of `read_t16k` (16 entries; the last two are the raw
byte values 14 and 15 with no named `NSButton`). -/
def T16K_BUTTON_MAP : List Nat := [
  NSButton.A,
  NSButton.B,
  NSButton.X,
  NSButton.Y,
  NSButton.LEFT_TRIGGER,
  NSButton.RIGHT_TRIGGER,
  NSButton.MINUS,
  NSButton.PLUS,
  NSButton.CAPTURE,
  NSButton.HOME,
  NSButton.LEFT_STICK,
  NSButton.RIGHT_STICK,
  NSButton.LEFT_THROTTLE,
  NSButton.RIGHT_THROTTLE,
  14,
  15]

/-- `read_t16k` body for one event. -/
def read_t16k_event (e : RawEvent) : Option (List SinkCall) :=
  if e.type = 1 then
    match T16K_BUTTON_MAP.get? e.number with
    | none => none
    | some button_out =>
        some (if e.value ≠ 0 then [SinkCall.press button_out] else [SinkCall.release button_out])
  else if e.type = 2 then
    let axis := quantize e.value
    some (if e.number = 0 then [SinkCall.leftXAxis axis]
      else if e.number = 1 then [SinkCall.leftYAxis axis]
      else if e.number = 4 then [SinkCall.rightXAxis axis]
      else if e.number = 5 then [SinkCall.rightYAxis axis]
      else [])
  else some []

/-
### Device registry / hot-plug manager (the `while True` loop of `main`)

One iteration of the loop is modelled as `cycle`: first the reap phase
(every tracked joystick whose thread `is_alive()` returns false is
forgotten), then the discovery scan over the entries of
`os.listdir('/dev/input')`.  The outcome of the two I/O operations on a
candidate — `open(jsname, 'rb')` and the `JSIOCGNAME` ioctl — is part of
the candidate datum, since it depends on the environment.  On open
failure the source executes `break`, ending the scan for this cycle; the
ioctl is *outside* the `try`, so its failure is an uncaught exception
that escapes `main` (modelled as `none`).
-/

/-- Which signature of the `elif` chain in `main` a device name matches. -/
inductive Sig
  | horipad
  | dragonRise
  | le3dp
  | t16k
  | xbox1
  | ps4ds
  | horiWheel
deriving DecidableEq

/-- Whether `pat` occurs at the head of `s` (character-list form of
Python `str.startswith`). -/
def occursAtStart : List Char → List Char → Bool
  | [], _ => true
  | _ :: _, [] => false
  | a :: as, b :: bs => a == b && occursAtStart as bs

/-- Whether `pat` occurs contiguously anywhere in `s` (the Python
`pat in s` substring test). -/
def occursIn (pat : List Char) : List Char → Bool
  | [] => occursAtStart pat []
  | b :: bs => occursAtStart pat (b :: bs) || occursIn pat bs

/-- The Python substring test `pat in s` on strings. -/
def strContains (s pat : String) : Bool := occursIn pat.data s.data

/-- Python `str.upper()` (ASCII case, which is all the signatures use). -/
def pyUpper (s : String) : String := String.mk (s.data.map Char.toUpper)

/-- `main`'s signature match: the `elif` chain applied to the uppercased
device name, in source order. -/
def matchSig (jslongname : String) : Option Sig :=
  if strContains jslongname "HORIPAD" then some Sig.horipad
  else if strContains jslongname "DRAGONRISE INC." then some Sig.dragonRise
  else if strContains jslongname "LOGITECH EXTREME 3D" then some Sig.le3dp
  else if strContains jslongname "THRUSTMASTER T.16000M" then some Sig.t16k
  else if strContains jslongname "MICROSOFT X-BOX ONE" then some Sig.xbox1
  else if strContains jslongname "SONY INTERACTIVE ENTERTAINMENT WIRELESS CONTROLLER" then
    some Sig.ps4ds
  else if strContains jslongname "GENERIC X-BOX PAD" then some Sig.horiWheel
  else none

/-- The decode routine a discovered device is bound to; `dragonRise`
carries the `right_side` argument passed to `read_dragon_rise`. -/
inductive Profile
  | horipad
  | dragonRise (right_side : Bool)
  | le3dp
  | t16k
  | xbox1
  | ps4ds
  | horiWheel
deriving DecidableEq

/-- One tracked decode thread: which routine it runs and whether
`is_alive()` currently reports it running. -/
structure TrackedUnit where
  profile : Profile
  alive : Bool
deriving DecidableEq

/-- The registry's mutable state in `main`: `dr_count` and the
`joysticks` dict (insertion-ordered, keyed by device path). -/
structure RegState where
  dr_count : Nat
  joysticks : List (String × TrackedUnit)
deriving DecidableEq

/-- State at entry of the `while True` loop: `dr_count = 0`,
`joysticks = {}`. -/
def initReg : RegState := { dr_count := 0, joysticks := [] }

/-- One directory entry of `os.listdir('/dev/input')` as seen by one
poll cycle: its filename and the outcome of opening and name-querying it
this cycle. -/
structure Candidate where
  fn : String
  open_ok : Bool
  query_ok : Bool
  name : String
deriving DecidableEq

/-- Device path of a candidate: `jsname = '/dev/input/' + fn`. -/
def jsnameOf (c : Candidate) : String := "/dev/input/" ++ c.fn

/-- The decode routine `main` binds to a matched signature.  For the
DragonRise branch the source passes `right_side = bool(dr_count & 1)`
(the `if dr_count & 1` alternation). -/
def sigProfile (st : RegState) (sig : Sig) : Profile :=
  match sig with
  | Sig.horipad => Profile.horipad
  | Sig.dragonRise => Profile.dragonRise (decide (st.dr_count &&& 1 = 1))
  | Sig.le3dp => Profile.le3dp
  | Sig.t16k => Profile.t16k
  | Sig.xbox1 => Profile.xbox1
  | Sig.ps4ds => Profile.ps4ds
  | Sig.horiWheel => Profile.horiWheel

/-- Effect on the registry state of one matched branch of the `elif`
chain in `main`: start the thread (tracked as alive) and record it in
`joysticks`; the DragonRise branch additionally runs `dr_count += 1`. -/
def spawnUnit (st : RegState) (jsname : String) (sig : Sig) : RegState :=
  { st with
    dr_count := if sig = Sig.dragonRise then st.dr_count + 1 else st.dr_count,
    joysticks := st.joysticks ++ [(jsname, ⟨sigProfile st sig, true⟩)] }

/-- The discovery scan of one poll cycle (`for fn in os.listdir(...)`).
A candidate not starting with `js`, or already tracked, is passed over.
An open failure executes `break`: the scan ends, the registry keeps its
state and continues (`some st`).  An ioctl failure is an uncaught
exception escaping `main` (`none`).  A matched name spawns a decode
thread; an unmatched name is closed and passed over. -/
def discover : List Candidate → RegState → Option RegState
  | [], st => some st
  | c :: rest, st =>
    if occursAtStart "js".data c.fn.data then
      let jsname := jsnameOf c
      if (st.joysticks.lookup jsname).isSome then
        discover rest st
      else if c.open_ok = false then
        some st
      else if c.query_ok = false then
        none
      else
        match matchSig (pyUpper c.name) with
        | some sig => discover rest (spawnUnit st jsname sig)
        | none => discover rest st
    else discover rest st

/-- The reap phase of one poll cycle: every tracked joystick whose thread
is not alive is collected in `joysticks_to_del` and deleted, i.e. the
entries with a live thread are kept. -/
def reap (js : List (String × TrackedUnit)) : List (String × TrackedUnit) :=
  js.filter (fun p => p.2.alive)

/-- One full iteration of `main`'s `while True` loop: reap, then
discover over this cycle's directory listing. -/
def cycle (cands : List Candidate) (st : RegState) : Option RegState :=
  discover cands { st with joysticks := reap st.joysticks }

/-
### Helper lemmas
-/

/-- Every tracked unit appended by `spawnUnit` is alive, and existing
entries are kept unchanged. -/
theorem spawnUnit_joysticks (st : RegState) (jsname : String) (sig : Sig) :
    (spawnUnit st jsname sig).joysticks =
      st.joysticks ++ [(jsname, ⟨sigProfile st sig, true⟩)] := rfl

/-- `discover` preserves the property that every tracked unit is alive. -/
theorem discover_allAlive (cands : List Candidate) (st st' : RegState)
    (hst : ∀ x ∈ st.joysticks, x.2.alive = true)
    (h : discover cands st = some st') :
    ∀ x ∈ st'.joysticks, x.2.alive = true := by
  induction cands generalizing st with
  | nil =>
    simp only [discover, Option.some.injEq] at h
    subst h
    exact hst
  | cons c rest ih =>
    simp only [discover] at h
    split at h
    · split at h
      · exact ih st hst h
      · split at h
        · simp only [Option.some.injEq] at h
          subst h
          exact hst
        · split at h
          · exact absurd h (by simp)
          · split at h
            · refine ih _ ?_ h
              intro x hx
              rw [spawnUnit_joysticks] at hx
              rcases List.mem_append.mp hx with h1 | h1
              · exact hst x h1
              · simp only [List.mem_singleton] at h1
                subst h1
                rfl
            · exact ih st hst h
    · exact ih st hst h

/-- Looking a key up in an append skips a left part that misses it. -/
theorem lookup_append_of_none (l1 l2 : List (String × TrackedUnit)) (k : String)
    (h : l1.lookup k = none) : (l1 ++ l2).lookup k = l2.lookup k := by
  induction l1 with
  | nil => rfl
  | cons a l ih =>
    simp only [List.lookup, List.cons_append] at h ⊢
    split at h
    · exact absurd h (by simp)
    · simpa using ih h

/-
### Claim theorems
-/

/-- C2 reference table, written from the claim words: mask bit order
L, D, R, U (mask value written LDRU, so U is bit 0 and L is bit 3). -/
def specDpadTable (m : Fin 16) : NSDPad :=
  match m.val with
  | 0 => NSDPad.CENTERED
  | 1 => NSDPad.UP
  | 2 => NSDPad.RIGHT
  | 3 => NSDPad.UP_RIGHT
  | 4 => NSDPad.DOWN
  | 5 => NSDPad.CENTERED
  | 6 => NSDPad.DOWN_RIGHT
  | 7 => NSDPad.CENTERED
  | 8 => NSDPad.LEFT
  | 9 => NSDPad.UP_LEFT
  | 10 => NSDPad.CENTERED
  | 11 => NSDPad.CENTERED
  | 12 => NSDPad.DOWN_LEFT
  | 13 => NSDPad.CENTERED
  | 14 => NSDPad.CENTERED
  | _ => NSDPad.CENTERED

/-- C2: the DPad combiner is total on the 16 four-bit masks and equals
the reference table; any mask with both Left (bit 3) and Right (bit 1),
or both Up (bit 0) and Down (bit 2), maps to Centered. -/
theorem dpad_combiner_matches_table :
    ∀ m : Fin 16,
      dpadCombine m.val = some (specDpadTable m)
      ∧ (m.val.testBit 3 = true → m.val.testBit 1 = true →
          dpadCombine m.val = some NSDPad.CENTERED)
      ∧ (m.val.testBit 0 = true → m.val.testBit 2 = true →
          dpadCombine m.val = some NSDPad.CENTERED) := by decide

/-- C2 witness: the combiner at mask 1010 (Left and Right both set). -/
theorem dpad_combiner_matches_table_witness :
    dpadCombine 10 = some NSDPad.CENTERED := by
  have h := (dpad_combiner_matches_table 10).2.1 (by decide) (by decide)
  simpa using h

/-- C3: the axis quantizer maps every signed 16-bit input into 0..255
and takes the stated values at the boundary inputs. -/
theorem quantize_range_and_values :
    (∀ raw : Int, -32768 ≤ raw → raw ≤ 32767 →
      0 ≤ quantize raw ∧ quantize raw ≤ 255)
    ∧ quantize (-32768) = 0
    ∧ quantize (-1) = 127
    ∧ quantize 0 = 128
    ∧ quantize 32767 = 255 := by
  refine ⟨fun raw h1 h2 => ?_, by decide, by decide, by decide, by decide⟩
  unfold quantize
  omega

/-- C3 witness: the range bound applied at raw = 256. -/
theorem quantize_range_and_values_witness :
    0 ≤ quantize 256 ∧ quantize 256 ≤ 255 :=
  quantize_range_and_values.1 256 (by decide) (by decide)

/-- C4: the four concrete Xbox-One scenarios: button 6 press/release maps
to Minus; axis 2 value 200 quantizes to 128, fails the strict threshold
and emits no press (the code emits a release); axis 2 value 20000
quantizes to 206 and emits press(LeftThrottle). -/
theorem xbox1_concrete_scenarios :
    read_xbox1_event ⟨0, 1, 1, 6⟩ = some [SinkCall.press NSButton.MINUS]
    ∧ read_xbox1_event ⟨0, 0, 1, 6⟩ = some [SinkCall.release NSButton.MINUS]
    ∧ quantize 200 = 128
    ∧ read_xbox1_event ⟨0, 200, 2, 2⟩ = some [SinkCall.release NSButton.LEFT_THROTTLE]
    ∧ (read_xbox1_event ⟨0, 200, 2, 2⟩).map countPress = some 0
    ∧ quantize 20000 = 206
    ∧ read_xbox1_event ⟨0, 20000, 2, 2⟩ = some [SinkCall.press NSButton.LEFT_THROTTLE] := by
  decide

/-- C1 counterexample: on the Xbox-One profile a button event with index
11 (one past the 11-entry map) is not ignored: the decoder neither
continues with no sink call (`some []`) nor with any call list at all —
the unguarded lookup raises and the loop dies (`none`). -/
theorem unmapped_button_counterexample :
    read_xbox1_event ⟨0, 1, 1, 11⟩ = none
    ∧ read_xbox1_event ⟨0, 1, 1, 11⟩ ≠ some [] := by decide

/-- C1 amended: an out-of-range button index emits no press/release on
the sink, but instead of being ignored it terminates the decode loop
(uncaught IndexError) in every profile that has a button map; the
HoriPad decoder has no map and forwards every index to the sink. -/
theorem unmapped_button_index_behavior (n : Nat) (v : Int) (t : Nat)
    (s : WheelState) (bits : Nat) (rs : Bool) :
    (11 ≤ n → read_xbox1_event ⟨t, v, 1, n⟩ = none)
    ∧ (13 ≤ n → read_ps4ds_event ⟨t, v, 1, n⟩ = none)
    ∧ (11 ≤ n → read_hori_wheel_event s ⟨t, v, 1, n⟩ = none)
    ∧ (12 ≤ n → read_dragon_rise_event rs bits ⟨t, v, 1, n⟩ = none)
    ∧ (12 ≤ n → read_le3dp_event ⟨t, v, 1, n⟩ = none)
    ∧ (16 ≤ n → read_t16k_event ⟨t, v, 1, n⟩ = none)
    ∧ read_horipad_event ⟨t, v, 1, n⟩ =
        (if v ≠ 0 then [SinkCall.press n] else [SinkCall.release n]) := by
  refine ⟨fun h => ?_, fun h => ?_, fun h => ?_, fun h => ?_, fun h => ?_, fun h => ?_, ?_⟩
  · have : XBOX1_BUTTON_MAP[n]? = none := List.getElem?_eq_none (by simp [XBOX1_BUTTON_MAP]; omega)
    simp [read_xbox1_event, this]
  · have : PS4DS_BUTTON_MAP[n]? = none := List.getElem?_eq_none (by simp [PS4DS_BUTTON_MAP]; omega)
    simp [read_ps4ds_event, this]
  · have : WHEEL_BUTTON_MAP[n]? = none := List.getElem?_eq_none (by simp [WHEEL_BUTTON_MAP]; omega)
    simp [read_hori_wheel_event, this]
  · cases rs with
    | false =>
      have : DR_BUTTON_MAP_LEFT[n]? = none := List.getElem?_eq_none (by simp [DR_BUTTON_MAP_LEFT]; omega)
      simp [read_dragon_rise_event, this]
    | true =>
      have : DR_BUTTON_MAP_RIGHT[n]? = none := List.getElem?_eq_none (by simp [DR_BUTTON_MAP_RIGHT]; omega)
      simp [read_dragon_rise_event, this]
  · have : LE3DP_BUTTON_MAP[n]? = none := List.getElem?_eq_none (by simp [LE3DP_BUTTON_MAP]; omega)
    simp [read_le3dp_event, this]
  · have : T16K_BUTTON_MAP[n]? = none := List.getElem?_eq_none (by simp [T16K_BUTTON_MAP]; omega)
    simp [read_t16k_event, this]
  · simp [read_horipad_event]

/-- C1 amended witness: all decoders evaluated at button index 16. -/
theorem unmapped_button_index_behavior_witness :
    read_xbox1_event ⟨0, 1, 1, 16⟩ = none
    ∧ read_ps4ds_event ⟨0, 1, 1, 16⟩ = none
    ∧ read_hori_wheel_event initWheelState ⟨0, 1, 1, 16⟩ = none
    ∧ read_dragon_rise_event false 0 ⟨0, 1, 1, 16⟩ = none
    ∧ read_le3dp_event ⟨0, 1, 1, 16⟩ = none
    ∧ read_t16k_event ⟨0, 1, 1, 16⟩ = none
    ∧ read_horipad_event ⟨0, 1, 1, 16⟩ = [SinkCall.press 16] := by
  have h := unmapped_button_index_behavior 16 1 0 initWheelState 0 false
  exact ⟨h.1 (by decide), h.2.1 (by decide), h.2.2.1 (by decide), h.2.2.2.1 (by decide),
    h.2.2.2.2.1 (by decide), h.2.2.2.2.2.1 (by decide), by simpa using h.2.2.2.2.2.2⟩

/-- C6 counterexample: with a failing-to-open `js0` ahead of it in the
same cycle, a perfectly good `js1` is not examined (the scan result
tracks nothing), although scanned alone it would be tracked; and a
name-query failure does not skip the device but kills the registry. -/
theorem discovery_error_counterexample :
    discover [⟨"js0", false, true, ""⟩, ⟨"js1", true, true, "HORIPAD"⟩] initReg = some initReg
    ∧ discover [⟨"js1", true, true, "HORIPAD"⟩] initReg =
        some { dr_count := 0, joysticks := [("/dev/input/js1", ⟨Profile.horipad, true⟩)] }
    ∧ discover [⟨"js0", true, false, ""⟩] initReg = none := by decide

/-- C6 amended: an open failure on an untracked candidate is non-fatal
to the registry but ends the discovery scan for the whole cycle (the
`break`), leaving the state as it was — the failed device and all
remaining candidates are retried only on the next cycle; a name-query
failure is unhandled and aborts the registry loop. -/
theorem discovery_error_skip_semantics (c : Candidate) (rest : List Candidate)
    (st : RegState)
    (hjs : occursAtStart "js".data c.fn.data = true)
    (huntracked : (st.joysticks.lookup (jsnameOf c)).isSome = false) :
    (c.open_ok = false → discover (c :: rest) st = some st)
    ∧ (c.open_ok = true → c.query_ok = false → discover (c :: rest) st = none) := by
  constructor
  · intro ho
    simp [discover, hjs, huntracked, ho]
  · intro ho hq
    simp [discover, hjs, huntracked, ho, hq]

/-- C6 amended witness: the two failure modes at concrete cycles. -/
theorem discovery_error_skip_semantics_witness :
    discover [⟨"js0", false, true, ""⟩, ⟨"js7", true, true, "HORIPAD"⟩] initReg = some initReg
    ∧ discover [⟨"js0", true, false, ""⟩] initReg = none := by
  refine ⟨(discovery_error_skip_semantics ⟨"js0", false, true, ""⟩
      [⟨"js7", true, true, "HORIPAD"⟩] initReg (by decide) (by decide)).1 rfl,
    (discovery_error_skip_semantics ⟨"js0", true, false, ""⟩
      [] initReg (by decide) (by decide)).2 rfl rfl⟩

/-- C7: on the racing-wheel throttle axes (2 and 5), feeding the same
event twice in a row emits at most one press over the pair of calls:
the first emission carries at most one press, and the repeat is fully
suppressed by the last-value cache (no sink call, no state change). -/
theorem wheel_throttle_idempotent (s : WheelState) (t : Nat) (v : Int) (n : Nat)
    (hn : n = 2 ∨ n = 5) (s1 : WheelState) (c1 : List SinkCall)
    (h : read_hori_wheel_event s ⟨t, v, 2, n⟩ = some (s1, c1)) :
    countPress c1 ≤ 1 ∧ read_hori_wheel_event s1 ⟨t, v, 2, n⟩ = some (s1, []) := by
  rcases hn with hn | hn <;> subst hn
  · by_cases hc : s.last_left_throttle = quantize v
    · simp only [read_hori_wheel_event, hc] at h ⊢
      simp at h
      obtain ⟨hs, hcl⟩ := h
      subst hs
      subst hcl
      simp [hc, countPress]
    · simp only [read_hori_wheel_event] at h ⊢
      simp [hc] at h
      obtain ⟨hs, hcl⟩ := h
      subst hs
      subst hcl
      constructor
      · split <;> simp [countPress]
      · simp
  · by_cases hc : s.last_right_throttle = quantize v
    · simp only [read_hori_wheel_event, hc] at h ⊢
      simp at h
      obtain ⟨hs, hcl⟩ := h
      subst hs
      subst hcl
      simp [hc, countPress]
    · simp only [read_hori_wheel_event] at h ⊢
      simp [hc] at h
      obtain ⟨hs, hcl⟩ := h
      subst hs
      subst hcl
      constructor
      · split <;> simp [countPress]
      · simp

/-- C7 witness: a left-throttle transition from the initial cache,
followed by the identical event being suppressed. -/
theorem wheel_throttle_idempotent_witness :
    countPress [SinkCall.press NSButton.LEFT_THROTTLE] ≤ 1
    ∧ read_hori_wheel_event ⟨206, 0, 128⟩ ⟨0, 20000, 2, 2⟩ = some (⟨206, 0, 128⟩, []) :=
  wheel_throttle_idempotent initWheelState 0 20000 2 (Or.inl rfl)
    ⟨206, 0, 128⟩ [SinkCall.press NSButton.LEFT_THROTTLE] (by decide)

set_option maxHeartbeats 8000000 in
/-- C10: the steering cache `last_wheel` starts at 128 and is never
assigned by any event, so on axis 0 a quantized value of exactly 128
never emits `leftXAxis`, and any other quantized value always emits it,
including immediate repeats. -/
theorem wheel_steering_no_suppression (s : WheelState) :
    initWheelState.last_wheel = 128
    ∧ (∀ e r, read_hori_wheel_event s e = some r → r.1.last_wheel = s.last_wheel)
    ∧ (∀ t v, s.last_wheel = 128 →
        ((quantize v = 128 → read_hori_wheel_event s ⟨t, v, 2, 0⟩ = some (s, []))
          ∧ (quantize v ≠ 128 →
              read_hori_wheel_event s ⟨t, v, 2, 0⟩ =
                some (s, [SinkCall.leftXAxis (quantize v)])))) := by
  refine ⟨rfl, ?_, ?_⟩
  · intro e r h
    obtain ⟨tt, vv, ty, nn⟩ := e
    unfold read_hori_wheel_event at h
    dsimp only at h
    repeat' split at h
    all_goals try exact Option.noConfusion h
    all_goals injection h with h2
    all_goals subst h2
    all_goals rfl
  · intro t v hlw
    constructor
    · intro hq
      simp [read_hori_wheel_event, hlw, hq]
    · intro hq
      simp [read_hori_wheel_event, hlw, Ne.symm hq]

/-- C10 witness: centered value suppressed, off-center value emitted,
both from the initial state. -/
theorem wheel_steering_no_suppression_witness :
    read_hori_wheel_event initWheelState ⟨0, 0, 2, 0⟩ = some (initWheelState, [])
    ∧ read_hori_wheel_event initWheelState ⟨0, 20000, 2, 0⟩ =
        some (initWheelState, [SinkCall.leftXAxis (quantize 20000)]) := by
  have h := (wheel_steering_no_suppression initWheelState).2.2
  exact ⟨(h 0 0 rfl).1 (by decide), (h 0 20000 rfl).2 (by decide)⟩

/-- C5: two successively discovered DragonRise devices get alternating
roles starting with left (`right_side = false` for the first thread,
`true` for the second), and the DragonRise decoder routes axes 0/1 to
the left-stick sink calls when `right_side = false` and to the
right-stick sink calls when `right_side = true`. -/
theorem dragonrise_pair_roles (c1 c2 : Candidate)
    (h1js : occursAtStart "js".data c1.fn.data = true)
    (h1o : c1.open_ok = true) (h1q : c1.query_ok = true)
    (h1m : matchSig (pyUpper c1.name) = some Sig.dragonRise)
    (h2js : occursAtStart "js".data c2.fn.data = true)
    (h2o : c2.open_ok = true) (h2q : c2.query_ok = true)
    (h2m : matchSig (pyUpper c2.name) = some Sig.dragonRise)
    (hne : jsnameOf c1 ≠ jsnameOf c2) :
    cycle [c1, c2] initReg =
      some { dr_count := 2,
             joysticks := [(jsnameOf c1, ⟨Profile.dragonRise false, true⟩),
                           (jsnameOf c2, ⟨Profile.dragonRise true, true⟩)] }
    ∧ (∀ bits v t,
        read_dragon_rise_event false bits ⟨t, v, 2, 0⟩ =
          some (bits, [SinkCall.leftXAxis (quantize v)])
        ∧ read_dragon_rise_event false bits ⟨t, v, 2, 1⟩ =
          some (bits, [SinkCall.leftYAxis (quantize v)])
        ∧ read_dragon_rise_event true bits ⟨t, v, 2, 0⟩ =
          some (bits, [SinkCall.rightXAxis (quantize v)])
        ∧ read_dragon_rise_event true bits ⟨t, v, 2, 1⟩ =
          some (bits, [SinkCall.rightYAxis (quantize v)])) := by
  constructor
  · simp [cycle, reap, initReg, discover, h1js, h1o, h1q, h1m, h2js, h2o, h2q, h2m,
      spawnUnit, sigProfile, List.lookup, beq_eq_false_iff_ne.mpr (Ne.symm hne)]
  · intro bits v t
    refine ⟨?_, ?_, ?_, ?_⟩ <;> simp [read_dragon_rise_event]

/-- C5 witness: two concrete DragonRise devices discovered in one cycle,
plus one axis event on each side. -/
theorem dragonrise_pair_roles_witness :
    cycle [⟨"js0", true, true, "DragonRise Inc. Generic USB Joystick"⟩,
           ⟨"js1", true, true, "DragonRise Inc. Generic USB Joystick"⟩] initReg =
      some { dr_count := 2,
             joysticks := [("/dev/input/js0", ⟨Profile.dragonRise false, true⟩),
                           ("/dev/input/js1", ⟨Profile.dragonRise true, true⟩)] }
    ∧ read_dragon_rise_event false 0 ⟨0, 1000, 2, 0⟩ =
        some (0, [SinkCall.leftXAxis (quantize 1000)])
    ∧ read_dragon_rise_event true 0 ⟨0, 1000, 2, 0⟩ =
        some (0, [SinkCall.rightXAxis (quantize 1000)]) := by
  have h := dragonrise_pair_roles
    (⟨"js0", true, true, "DragonRise Inc. Generic USB Joystick"⟩ : Candidate)
    (⟨"js1", true, true, "DragonRise Inc. Generic USB Joystick"⟩ : Candidate)
    (by decide) rfl rfl (by decide) (by decide) rfl rfl (by decide) (by decide)
  refine ⟨?_, (h.2 0 1000 0).1, (h.2 0 1000 0).2.2.1⟩
  rw [h.1]
  decide

/-- C8: one poll cycle (a) keeps after its reap phase exactly the
tracked entries whose decode thread is alive — every terminated unit is
removed during the cycle — (b) leaves, whatever discovery then does, no
terminated unit in the tracked set at the end of the cycle, and (c) a
path dropped by the reap is re-examined by discovery and receives a
fresh (alive) decode unit when a matching device is present there. -/
theorem hotplug_reap_and_rediscover (cands : List Candidate) (st st' : RegState)
    (c : Candidate)
    (hjs : occursAtStart "js".data c.fn.data = true)
    (ho : c.open_ok = true) (hq : c.query_ok = true)
    (hm : matchSig (pyUpper c.name) = some Sig.horipad)
    (hlk : (reap st.joysticks).lookup (jsnameOf c) = none) :
    (∀ p u, (p, u) ∈ reap st.joysticks ↔ ((p, u) ∈ st.joysticks ∧ u.alive = true))
    ∧ (cycle cands st = some st' → ∀ x ∈ st'.joysticks, x.2.alive = true)
    ∧ cycle [c] st =
        some { dr_count := st.dr_count,
               joysticks := reap st.joysticks ++
                 [(jsnameOf c, (⟨Profile.horipad, true⟩ : TrackedUnit))] }
    ∧ (reap st.joysticks ++
        [(jsnameOf c, (⟨Profile.horipad, true⟩ : TrackedUnit))]).lookup (jsnameOf c) =
        some (⟨Profile.horipad, true⟩ : TrackedUnit) := by
  refine ⟨?_, ?_, ?_, ?_⟩
  · intro p u
    simp [reap, List.mem_filter]
  · intro h
    refine discover_allAlive cands _ st' ?_ h
    intro x hx
    simp only [reap, List.mem_filter] at hx
    exact hx.2
  · simp [cycle, discover, hjs, hlk, ho, hq, hm, spawnUnit, sigProfile]
  · rw [lookup_append_of_none (reap st.joysticks)
      [(jsnameOf c, (⟨Profile.horipad, true⟩ : TrackedUnit))] (jsnameOf c) hlk]
    simp [List.lookup]

/-- C8 witness: a dead Xbox-One unit at `/dev/input/js0` is reaped and
the same path is immediately re-discovered as a fresh HoriPad unit. -/
theorem hotplug_reap_and_rediscover_witness :
    cycle [⟨"js0", true, true, "HORIPAD"⟩]
        { dr_count := 0, joysticks := [("/dev/input/js0", ⟨Profile.xbox1, false⟩)] } =
      some { dr_count := 0, joysticks := [("/dev/input/js0", ⟨Profile.horipad, true⟩)] } := by
  have h := (hotplug_reap_and_rediscover []
      { dr_count := 0, joysticks := [("/dev/input/js0", ⟨Profile.xbox1, false⟩)] }
      initReg ⟨"js0", true, true, "HORIPAD"⟩ (by decide) rfl rfl (by decide) (by decide)).2.2.1
  rw [h]
  decide

end NSAC
